import Mathlib

/-!
Verification of the qr-upload repository: a shallow embedding, in Lean, of the
browser-side desktop application (website/js/app.js), the mobile upload page
(website/js/mobile-upload.js), the push-channel client helper
(website/js/websocket-client.js), the infrastructure deploy script
(infra/deploy-main-stack.sh) and the two per-service packaging scripts
(lambda/*/build-and-package.sh), together with theorems settling the frozen
claims about them.

Modelling conventions:
- Browser host APIs (fetch, WebSocket, JSON.parse, the DOM) are external to the
  embedded code; their results enter the model as explicit parameters
  (for example the parse result of an incoming push frame is an
  Option Json, none standing for a JSON.parse exception), and outgoing
  network traffic is returned as an explicit list of requests.
- DOM text fields that no claim mentions (info message, error message text,
  success detail text) are omitted from the state; the rendered QR payload is
  kept because claims speak about it.
- Shell scripts are embedded as functions from their argument list and the
  success/failure of each external command to a result record describing the
  externally visible effects the claims speak about.
-/

set_option autoImplicit false

namespace QRUpload

/-! ### Small JavaScript-facing helpers -/

/-- Hexadecimal digit character, uppercase, as produced by encodeURIComponent. -/
def hexDigitChar (n : Nat) : Char :=
  Char.ofNat (if n < 10 then 48 + n else 55 + n)

/-- UTF-8 byte sequence of one character (as Nat values 0..255). -/
def utf8Bytes (c : Char) : List Nat :=
  let n := c.toNat
  if n < 128 then [n]
  else if n < 2048 then [192 + n / 64, 128 + n % 64]
  else if n < 65536 then [224 + n / 4096, 128 + (n / 64) % 64, 128 + n % 64]
  else [240 + n / 262144, 128 + (n / 4096) % 64, 128 + (n / 64) % 64, 128 + n % 64]

/-- Bytes left unescaped by encodeURIComponent: ASCII letters, digits, and
the characters - _ . ! ~ * quote ( ). -/
def isUnreservedByte (b : Nat) : Bool :=
  (65 ≤ b && b ≤ 90) || (97 ≤ b && b ≤ 122) || (48 ≤ b && b ≤ 57) ||
  b = 45 || b = 95 || b = 46 || b = 33 || b = 126 || b = 42 ||
  b = 39 || b = 40 || b = 41

/-- Percent-encoding of one byte, e.g. 32 becomes the three characters %20. -/
def percentByte (b : Nat) : String :=
  String.mk [Char.ofNat 37, hexDigitChar (b / 16), hexDigitChar (b % 16)]

/-- The encodeURIComponent host function used by both pages to embed a session
identifier into a URL query string. -/
def encodeURIComponent (s : String) : String :=
  String.join ((s.data.flatMap utf8Bytes).map
    (fun b => if isUnreservedByte b then String.singleton (Char.ofNat b) else percentByte b))

/-! ### JSON values

The push channel carries JSON text. JSON.parse and JSON.stringify are host
functions; we embed JSON values structurally so that the message-matching
logic of the desktop application and the serialization step of the client
helper can be stated over them. -/

/-- A parsed JSON value. An object is an association list of its distinct
field names in order. -/
inductive Json where
  | null : Json
  | bool (b : Bool) : Json
  | num (n : Int) : Json
  | str (s : String) : Json
  | arr (xs : List Json) : Json
  | obj (fields : List (String × Json)) : Json

/-- Escaping of one character inside a JSON string literal, as JSON.stringify
performs it (quote, backslash, and control characters). -/
def escapeChar (c : Char) : String :=
  if c.toNat = 34 then String.mk [Char.ofNat 92, Char.ofNat 34]
  else if c.toNat = 92 then String.mk [Char.ofNat 92, Char.ofNat 92]
  else if c.toNat = 10 then String.mk [Char.ofNat 92, Char.ofNat 110]
  else if c.toNat = 13 then String.mk [Char.ofNat 92, Char.ofNat 114]
  else if c.toNat = 9 then String.mk [Char.ofNat 92, Char.ofNat 116]
  else if c.toNat < 32 then
    String.mk [Char.ofNat 92, Char.ofNat 117, Char.ofNat 48, Char.ofNat 48,
               hexDigitChar (c.toNat / 16), hexDigitChar (c.toNat % 16)]
  else String.singleton c

/-- A JSON string literal: quote, escaped characters, quote. -/
def quoteString (s : String) : String :=
  String.singleton (Char.ofNat 34) ++ String.join (s.data.map escapeChar)
    ++ String.singleton (Char.ofNat 34)

mutual

/-- JSON.stringify on a parsed value (the text frame the client helper puts on
the wire). -/
def Json.stringify : Json → String
  | Json.null => "null"
  | Json.bool b => cond b "true" "false"
  | Json.num n => toString n
  | Json.str s => quoteString s
  | Json.arr xs => "[" ++ Json.stringifyArr xs ++ "]"
  | Json.obj fs => "\x7b" ++ Json.stringifyObj fs ++ "\x7d"

/-- Comma-separated serialization of the elements of a JSON array. -/
def Json.stringifyArr : List Json → String
  | [] => ""
  | [j] => Json.stringify j
  | j :: tl => Json.stringify j ++ "," ++ Json.stringifyArr tl

/-- Comma-separated serialization of the fields of a JSON object. -/
def Json.stringifyObj : List (String × Json) → String
  | [] => ""
  | [(k, v)] => quoteString k ++ ":" ++ Json.stringify v
  | (k, v) :: tl => quoteString k ++ ":" ++ Json.stringify v ++ "," ++ Json.stringifyObj tl

end

/-- Property access data.k on a parsed JSON value: a field of an object, and
the JavaScript undefined (here none) on anything else. -/
def Json.getField : Json → String → Option Json
  | Json.obj fs, k => lookupField fs k
  | _, _ => none
where
  /-- First binding of the key in the field list. -/
  lookupField : List (String × Json) → String → Option Json
    | [], _ => none
    | (k2, v) :: tl, k => if k2 = k then some v else lookupField tl k

/-- JavaScript strict equality between a property-access result (undefined or
a JSON value) and a string literal. -/
def strictEqString (v : Option Json) (s : String) : Bool :=
  match v with
  | some (Json.str t) => t = s
  | _ => false

/-- JavaScript strict equality between a property-access result and a state
field that is either a string or null (none). Undefined is equal to nothing,
null only to null, a string only to the same string. -/
def strictEqOptString (v : Option Json) (s : Option String) : Bool :=
  match v, s with
  | some (Json.str t), some u => t = u
  | some Json.null, none => true
  | _, _ => false

/-! ### Push-channel client helper (website/js/websocket-client.js)

class WebSocketClient holds a target url, a callback record (not modelled:
the callbacks are wired by the desktop application and appear there as
events), and a socket handle that is null until connect. -/

/-- The readyState values of a browser WebSocket. -/
inductive ReadyState where
  | CONNECTING : ReadyState
  | OPEN : ReadyState
  | CLOSING : ReadyState
  | CLOSED : ReadyState
  deriving DecidableEq, Repr

/-- The underlying browser socket, reduced to the only field the helper
inspects. -/
structure WSSocket where
  readyState : ReadyState
  deriving DecidableEq, Repr

/-- The client helper state: this.url and this.socket (none models null). -/
structure WebSocketClient where
  url : String
  socket : Option WSSocket
  deriving DecidableEq, Repr

namespace WebSocketClient

/-- connect(): if a socket is held, close it first; then create a fresh
socket for this.url (a new browser WebSocket starts in CONNECTING). -/
def connect (c : WebSocketClient) : WebSocketClient :=
  { c with socket := some { readyState := ReadyState.CONNECTING } }

/-- send(data): returns the text frame put on the wire, or none when the call
is a no-op. The source returns early unless a socket is held and its
readyState is WebSocket.OPEN; otherwise it sends JSON.stringify(data).
The client state itself is unchanged by send. -/
def send (c : WebSocketClient) (data : Json) : Option String :=
  match c.socket with
  | none => none
  | some s =>
    if s.readyState = ReadyState.OPEN then some (Json.stringify data) else none

/-- close(): if a socket is held, close it and clear the handle; otherwise do
nothing. -/
def close (c : WebSocketClient) : WebSocketClient :=
  match c.socket with
  | some _ => { c with socket := none }
  | none => c

/-- The guard condition of send, as the specification phrases it: the
connection is currently open. -/
def isOpen (c : WebSocketClient) : Bool :=
  match c.socket with
  | some s => s.readyState = ReadyState.OPEN
  | none => false

end WebSocketClient

/-! ### Desktop web application (website/js/app.js)

class QRUploadApp. The state object holds sessionId, wsClient and
currentView; we additionally track the text rendered into the QR container
(qrText, set through QRGenerator.generateQRCode) and, for the channel
invariant, the number of sockets the application opened and then dropped
without closing (leakedSockets: the code has no such variable, the counter
makes the absence of leaks provable). DOM message texts are omitted. -/

/-- The view names toggled by showView. -/
inductive View where
  | initial : View
  | loading : View
  | qr : View
  | success : View
  | error : View
  deriving DecidableEq, Repr

/-- Deploy-time configuration of the desktop application (this.config):
base addresses of the request/response API and of the push-channel API. -/
structure AppConfig where
  httpApiUrl : String
  wsApiUrl : String
  deriving DecidableEq, Repr

/-- The mutable state of the desktop application, plus the rendered QR payload
and the leak counter described above. -/
structure AppState where
  sessionId : Option String
  wsClient : Option WebSocketClient
  currentView : View
  qrText : Option String
  leakedSockets : Nat
  deriving DecidableEq, Repr

/-- State after construction and init(): no session, no client, initial view,
empty QR container. -/
def initState : AppState :=
  { sessionId := none, wsClient := none, currentView := View.initial,
    qrText := none, leakedSockets := 0 }

namespace QRUploadApp

/-- teardownWebSocket(): if a client is held, close it (which closes its
socket) and clear the handle; otherwise do nothing. -/
def teardownWebSocket (st : AppState) : AppState :=
  match st.wsClient with
  | some _ => { st with wsClient := none }
  | none => st

/-- connectWebSocket(sessionId): build the channel URL, overwrite
this.state.wsClient with a fresh client and call connect() on it. If the old
handle still held an un-closed socket it is dropped without close, which the
leak counter records. -/
def connectWebSocket (cfg : AppConfig) (st : AppState) (sid : String) : AppState :=
  let wsUrl := cfg.wsApiUrl ++ "?sessionId=" ++ encodeURIComponent sid
  let leaked := st.leakedSockets +
    (match st.wsClient with
     | some c => if c.socket.isSome then 1 else 0
     | none => 0)
  let client := WebSocketClient.connect { url := wsUrl, socket := none }
  { st with wsClient := some client, leakedSockets := leaked }

/-- The first half of startUpload(), up to the await of createSession():
showView("loading") and clearError() (error text not modelled). -/
def startUploadBegin (st : AppState) : AppState :=
  { st with currentView := View.loading }

/-- The success continuation of startUpload() once createSession() resolved
with a body carrying sessionId: store it, build the QR payload
(httpApiUrl)/upload-url?sessionId=(encoded id), render it, connect the push
channel, showView("qr"). -/
def startUploadResume (cfg : AppConfig) (st : AppState) (sid : String) : AppState :=
  let uurl := cfg.httpApiUrl ++ "/upload-url?sessionId=" ++ encodeURIComponent sid
  let st1 := { st with sessionId := some sid, qrText := some uurl }
  let st2 := connectWebSocket cfg st1 sid
  { st2 with currentView := View.qr }

/-- showError(message): tear the channel down, set the error text (omitted),
showView("error"). -/
def showError (st : AppState) : AppState :=
  { teardownWebSocket st with currentView := View.error }

/-- showSuccess(data): tear the channel down, set the success detail text
(omitted), showView("success"). -/
def showSuccess (st : AppState) : AppState :=
  { teardownWebSocket st with currentView := View.success }

/-- reset(): tear the channel down, clear sessionId and the QR container,
pick a new info message (omitted), showView("initial"). cancelUpload() just
calls reset(). -/
def reset (st : AppState) : AppState :=
  { teardownWebSocket st with
      sessionId := none, qrText := none, currentView := View.initial }

/-- handleWebSocketMessage(event) applied to the JSON.parse outcome of
event.data: a parse exception (none) only logs a warning; otherwise
showSuccess runs exactly when data.action is strictly equal to the string
UPLOAD_COMPLETED and data.sessionId is strictly equal to
this.state.sessionId. -/
def handleWebSocketMessage (st : AppState) (parsed : Option Json) : AppState :=
  match parsed with
  | none => st
  | some data =>
    if strictEqString (data.getField "action") "UPLOAD_COMPLETED"
        && strictEqOptString (data.getField "sessionId") st.sessionId
    then showSuccess st
    else st

end QRUploadApp

/-- Number of sockets the application opened and has not closed: the leaked
ones plus the held client when its socket handle is live. -/
def openChannels (st : AppState) : Nat :=
  st.leakedSockets +
    (match st.wsClient with
     | some c => if c.socket.isSome then 1 else 0
     | none => 0)

/-- One atomic event-driven step of the desktop application. Guards record
when the event can fire: buttons exist only in their view (start in initial,
retry in error, cancel in qr, reset in error, new-upload in success), the
createSession continuations resume the flow started from the loading view,
and the channel callbacks require a held client. -/
inductive AppStep (cfg : AppConfig) : AppState → AppState → Prop where
  | clickStart (st : AppState)
      (h : st.currentView = View.initial ∨ st.currentView = View.error) :
      AppStep cfg st (QRUploadApp.startUploadBegin st)
  | sessionOk (st : AppState) (sid : String)
      (h : st.currentView = View.loading) :
      AppStep cfg st (QRUploadApp.startUploadResume cfg st sid)
  | sessionFail (st : AppState)
      (h : st.currentView = View.loading) :
      AppStep cfg st (QRUploadApp.showError st)
  | wsMessage (st : AppState) (parsed : Option Json)
      (h : st.wsClient.isSome = true) :
      AppStep cfg st (QRUploadApp.handleWebSocketMessage st parsed)
  | wsError (st : AppState)
      (h : st.wsClient.isSome = true) :
      AppStep cfg st (QRUploadApp.showError st)
  | clickCancel (st : AppState)
      (h : st.currentView = View.qr) :
      AppStep cfg st (QRUploadApp.reset st)
  | clickReset (st : AppState)
      (h : st.currentView = View.success ∨ st.currentView = View.error) :
      AppStep cfg st (QRUploadApp.reset st)

/-- States the desktop application can be in, starting from initState. -/
inductive Reachable (cfg : AppConfig) : AppState → Prop where
  | init : Reachable cfg initState
  | step (st st2 : AppState) :
      Reachable cfg st → AppStep cfg st st2 → Reachable cfg st2

/-- The channel invariant maintained by the application: no socket has ever
been leaked, and a client handle is only held while the qr view is active. -/
def ChannelInv (st : AppState) : Prop :=
  st.leakedSockets = 0 ∧ (∀ c, st.wsClient = some c → st.currentView = View.qr)

/-! ### Mobile upload page (website/js/mobile-upload.js)

The page reached by scanning the code. Outgoing network traffic is returned
explicitly; the outcomes of the two fetch calls enter as parameters. -/

/-- The views of the mobile page; start is whatever the static page shows
before init() runs. -/
inductive MView where
  | start : MView
  | loading : MView
  | ready : MView
  | uploading : MView
  | success : MView
  | error : MView
  deriving DecidableEq, Repr

/-- Configuration of the mobile page: base address of the request/response
API (const config, default merged with window.QR_UPLOAD_CONFIG). -/
structure MobileConfig where
  httpApiUrl : String
  deriving DecidableEq, Repr

/-- A selected file, reduced to the fields the page reads: name, declared
content type (empty string when the browser reports none) and raw bytes. -/
structure MobileFile where
  name : String
  mimeType : String
  bytes : List Nat
  deriving DecidableEq, Repr

/-- The mutable state object of the page, plus the current view. Element
texts are omitted. -/
structure MobileState where
  sessionId : Option String
  uploadUrl : Option String
  uploadKey : Option String
  file : Option MobileFile
  currentView : MView
  deriving DecidableEq, Repr

/-- Page state before init() runs. -/
def mobileInitState : MobileState :=
  { sessionId := none, uploadUrl := none, uploadKey := none,
    file := none, currentView := MView.start }

/-- The body of an outgoing fetch: none, raw file bytes, or JSON text. The
page only ever sends empty bodies and raw bytes; the jsonText constructor
exists so that sending a structured envelope is expressible and provably
absent. -/
inductive HttpBody where
  | empty : HttpBody
  | raw (bytes : List Nat) : HttpBody
  | jsonText (s : String) : HttpBody
  deriving DecidableEq, Repr

/-- One outgoing network request of the page. -/
structure HttpRequest where
  method : String
  url : String
  contentType : Option String
  body : HttpBody
  deriving DecidableEq, Repr

/-- Outcome of the GET (httpApiUrl)/upload-url fetch as the page sees it:
a 2xx JSON body carrying uploadUrl and uploadKey, or any failure (non-ok
status, network error, or a body that fails to parse) which loadUploadUrl
turns into a thrown error. -/
inductive UploadUrlOutcome where
  | ok (uploadUrl uploadKey : String) : UploadUrlOutcome
  | failed : UploadUrlOutcome
  deriving DecidableEq, Repr

/-- URLSearchParams.get: first value bound to the key, none when absent. -/
def searchParamsGet (q : List (String × String)) (k : String) : Option String :=
  (q.find? (fun p => p.1 = k)).map Prod.snd

/-- JavaScript falsiness of state.sessionId after params.get: null or the
empty string. -/
def missingSessionId (sid : Option String) : Bool :=
  match sid with
  | none => true
  | some s => s = ""

/-- init(): read sessionId from the query string; if falsy, showError and
stop before any fetch. Otherwise run loadUploadUrl (one GET request); on its
success store uploadUrl and uploadKey and show ready, on failure (caught in
init) show error. Returns the final state and every request issued. -/
def mobileInit (cfg : MobileConfig) (query : List (String × String))
    (resp : UploadUrlOutcome) : MobileState × List HttpRequest :=
  let sid := searchParamsGet query "sessionId"
  let st0 := { mobileInitState with sessionId := sid }
  if missingSessionId sid then
    ({ st0 with currentView := MView.error }, [])
  else
    match sid with
    | none => ({ st0 with currentView := MView.error }, [])
    | some s =>
      let req : HttpRequest :=
        { method := "GET",
          url := cfg.httpApiUrl ++ "/upload-url?sessionId=" ++ encodeURIComponent s,
          contentType := none, body := HttpBody.empty }
      match resp with
      | UploadUrlOutcome.ok u k =>
        ({ st0 with uploadUrl := some u, uploadKey := some k,
                    currentView := MView.ready }, [req])
      | UploadUrlOutcome.failed =>
        ({ st0 with currentView := MView.error }, [req])

/-- uploadFile() together with the catch in the upload-button listener: with
no file or a falsy uploadUrl, showError and no request; otherwise one PUT of
the raw file bytes to the held uploadUrl with Content-Type the declared file
type or application/octet-stream, ending in the success view when the
response is ok and in the error view otherwise. -/
def uploadFile (st : MobileState) (putOk : Bool) : MobileState × List HttpRequest :=
  match st.file with
  | none => ({ st with currentView := MView.error }, [])
  | some f =>
    match st.uploadUrl with
    | none => ({ st with currentView := MView.error }, [])
    | some u =>
      if u = "" then ({ st with currentView := MView.error }, [])
      else
        let req : HttpRequest :=
          { method := "PUT", url := u,
            contentType := some (if f.mimeType = "" then "application/octet-stream" else f.mimeType),
            body := HttpBody.raw f.bytes }
        if putOk then ({ st with currentView := MView.success }, [req])
        else ({ st with currentView := MView.error }, [req])

/-! ### Deployment and packaging tooling

infra/deploy-main-stack.sh and the two lambda/&lowast;/build-and-package.sh
scripts, embedded as functions from the argument list and the
success/failure of each external command to a record of the externally
visible effects. The scripts run under set -euo pipefail, so an unguarded
failing command aborts the script at that point with a nonzero status. -/

/-- Outcome of the argument-parsing loop of deploy-main-stack.sh, started
with AWS_ENV and AWS_PROFILE unset in the calling environment. -/
inductive ParseOut where
  | unbound : ParseOut
  | usage : ParseOut
  | done (env profile : Option String) (debug : Bool) : ParseOut
  deriving DecidableEq, Repr

/-- The while-loop over the positional parameters: -e and --environment take
a value into AWS_ENV, -p and --profile into AWS_PROFILE, -d and --debug set
DEBUG, -h and --help call usage, anything else prints the unknown option and
calls usage. A flag expecting a value with none left aborts on the unbound
expansion of the second positional parameter (set -u). -/
def parseArgs : List String → Option String → Option String → Bool → ParseOut
  | [], env, prof, dbg => ParseOut.done env prof dbg
  | a :: rest, env, prof, dbg =>
    if a = "-e" ∨ a = "--environment" then
      match rest with
      | [] => ParseOut.unbound
      | v :: rest2 => parseArgs rest2 (some v) prof dbg
    else if a = "-p" ∨ a = "--profile" then
      match rest with
      | [] => ParseOut.unbound
      | v :: rest2 => parseArgs rest2 env (some v) dbg
    else if a = "-d" ∨ a = "--debug" then
      parseArgs rest env prof true
    else
      ParseOut.usage

/-- Success or failure of each external command main runs unguarded. The
describe-stacks probe inside check_stack_exists is guarded by an if and
cannot abort the script, so it does not appear. The sed call of
prepare_deploy_template writes the temporary template from the committed
root template; it is treated as succeeding whenever reached. -/
structure ExtCommands where
  stsOk : Bool
  syncOk : Bool
  deployOk : Bool
  outputsOk : Bool
  deriving DecidableEq, Repr

/-- Externally visible result of one deploy-script run. exitedZero is the
final status (false stands for any nonzero exit), usagePrinted whether the
usage text was shown, deployInvoked whether the cloudformation deploy
command was executed, and tempTemplateAtExit whether the rewritten
packaged-qr-upload-stack.yaml file exists in the working tree when the
script exits. -/
structure ScriptResult where
  exitedZero : Bool
  usagePrinted : Bool
  deployInvoked : Bool
  tempTemplateAtExit : Bool
  deriving DecidableEq, Repr

/-- The body of main once the environment is validated as dev. stale says
whether a packaged-qr-upload-stack.yaml from an earlier run is already
present. Under set -e the first failing command ends the script; cleanup
only runs after show_outputs succeeds. -/
def deployMain (ext : ExtCommands) (stale : Bool) : ScriptResult :=
  if ¬ ext.stsOk then
    { exitedZero := false, usagePrinted := false, deployInvoked := false,
      tempTemplateAtExit := stale }
  else if ¬ ext.syncOk then
    { exitedZero := false, usagePrinted := false, deployInvoked := false,
      tempTemplateAtExit := stale }
  else if ¬ ext.deployOk then
    -- prepare_deploy_template has removed any stale copy and written a fresh
    -- one; the deploy command runs and fails; set -e exits here.
    { exitedZero := false, usagePrinted := false, deployInvoked := true,
      tempTemplateAtExit := true }
  else if ¬ ext.outputsOk then
    { exitedZero := false, usagePrinted := false, deployInvoked := true,
      tempTemplateAtExit := true }
  else
    -- cleanup removes the temporary template.
    { exitedZero := true, usagePrinted := false, deployInvoked := true,
      tempTemplateAtExit := false }

/-- The whole script: parse arguments, validate that an environment was given
and that it is dev (anything else prints an error plus usage and exits 1),
then run main. -/
def runDeployScript (args : List String) (ext : ExtCommands) (stale : Bool) :
    ScriptResult :=
  match parseArgs args none none false with
  | ParseOut.unbound =>
    { exitedZero := false, usagePrinted := false, deployInvoked := false,
      tempTemplateAtExit := stale }
  | ParseOut.usage =>
    { exitedZero := false, usagePrinted := true, deployInvoked := false,
      tempTemplateAtExit := stale }
  | ParseOut.done env _ _ =>
    match env with
    | none =>
      { exitedZero := false, usagePrinted := true, deployInvoked := false,
        tempTemplateAtExit := stale }
    | some e =>
      if e = "dev" then deployMain ext stale
      else
        { exitedZero := false, usagePrinted := true, deployInvoked := false,
          tempTemplateAtExit := stale }

/-- Whether a manifest line matches the grep pattern anchoring the comment
character to the start of the line. -/
def startsWithHash (l : String) : Bool :=
  match l.data with
  | [] => false
  | c :: _ => c = Char.ofNat 35

/-- The dependency check shared by both packaging scripts:
grep -v over the comment lines, then over the empty lines; the pipeline
succeeds exactly when some line of requirements.txt neither starts with the
comment character nor is empty. -/
def manifestHasDeps (reqLines : List String) : Bool :=
  reqLines.any (fun l => ¬ startsWithHash l && l ≠ "")

/-- The code every packaging script copies into the build directory first:
the service source tree itself. -/
def ownCode : List String := ["__init__.py", "lambda_function.py", "handlers", "utils"]

/-- Externally visible result of one successful packaging run. -/
structure PackageResult where
  pipInstallRan : Bool
  zipContents : List String
  buildDirRemains : Bool
  localZipRemains : Bool
  uploadedToS3 : Bool
  ssmParamUpdated : Bool
  deriving DecidableEq, Repr

/-- lambda/http_api_handler/build-and-package.sh on a run whose external
commands all succeed: clean build dir, copy the service code, pip install
into the build dir only when the manifest has dependencies (deps lists what
such an install would add), zip, remove the build dir — and keep
http-api-handler.zip in the working tree; nothing is uploaded or recorded. -/
def httpApiPackage (reqLines : List String) (deps : List String) : PackageResult :=
  let hasDeps := manifestHasDeps reqLines
  { pipInstallRan := hasDeps
    zipContents := ownCode ++ (if hasDeps then deps else [])
    buildDirRemains := false
    localZipRemains := true
    uploadedToS3 := false
    ssmParamUpdated := false }

/-- lambda/websocket_event_handler/build-and-package.sh on a run whose
external commands all succeed: same build steps with a timestamped zip name,
then upload to the config bucket, record the filename in the SSM parameter,
remove the build dir, and finally remove the local zip. -/
def websocketPackage (reqLines : List String) (deps : List String) : PackageResult :=
  let hasDeps := manifestHasDeps reqLines
  { pipInstallRan := hasDeps
    zipContents := ownCode ++ (if hasDeps then deps else [])
    buildDirRemains := false
    localZipRemains := false
    uploadedToS3 := true
    ssmParamUpdated := true }

/-! ### Concrete sample values used to instantiate the theorems -/

/-- A sample deploy-time configuration for the desktop application. -/
def demoCfg : AppConfig :=
  { httpApiUrl := "https://api.example.com", wsApiUrl := "wss://ws.example.com" }

/-- The desktop state reached by clicking start in the initial view and having
session creation succeed with session identifier abc123. -/
def demoQrState : AppState :=
  QRUploadApp.startUploadResume demoCfg (QRUploadApp.startUploadBegin initState) "abc123"

/-- A completion push message for session abc123, as parsed from the wire. -/
def demoMsg : Json :=
  Json.obj [("action", Json.str "UPLOAD_COMPLETED"),
            ("sessionId", Json.str "abc123"),
            ("uploadKey", Json.str "session-uploads/abc123/image.jpg")]

/-- A sample mobile-page state holding a selected file and an authorization. -/
def demoMobileReady : MobileState :=
  { sessionId := some "abc123",
    uploadUrl := some "https://uploads.example.com/session-uploads/abc123/image.jpg?sig=x",
    uploadKey := some "session-uploads/abc123/image.jpg",
    file := some { name := "image.jpg", mimeType := "image/jpeg", bytes := [137, 80, 78, 71] },
    currentView := MView.ready }

/-! ### Supporting lemmas: the desktop channel invariant -/

theorem channelInv_init : ChannelInv initState := by
  constructor
  · rfl
  · intro c hc
    simp [initState] at hc

theorem channelInv_step (cfg : AppConfig) (st st2 : AppState)
    (hinv : ChannelInv st) (hstep : AppStep cfg st st2) : ChannelInv st2 := by
  obtain ⟨hleak, hcl⟩ := hinv
  cases hstep with
  | clickStart h =>
    refine ⟨hleak, ?_⟩
    intro c hc
    simp only [QRUploadApp.startUploadBegin] at hc
    have := hcl c hc
    rcases h with h | h <;> rw [this] at h <;> cases h
  | sessionOk sid h =>
    have hnone : st.wsClient = none := by
      cases hwc : st.wsClient with
      | none => rfl
      | some c => rw [hcl c hwc] at h; cases h
    constructor
    · simp [QRUploadApp.startUploadResume, QRUploadApp.connectWebSocket, hnone, hleak]
    · intro c _
      rfl
  | sessionFail h =>
    constructor
    · simp [QRUploadApp.showError, QRUploadApp.teardownWebSocket, hleak]
      cases hwc : st.wsClient <;> simp [hwc, hleak]
    · intro c hc
      simp only [QRUploadApp.showError, QRUploadApp.teardownWebSocket] at hc
      cases hwc : st.wsClient <;> simp [hwc] at hc
  | wsMessage parsed h =>
    cases parsed with
    | none => exact ⟨hleak, hcl⟩
    | some data =>
      simp only [QRUploadApp.handleWebSocketMessage]
      by_cases hcond : (strictEqString (data.getField "action") "UPLOAD_COMPLETED"
          && strictEqOptString (data.getField "sessionId") st.sessionId) = true
      · rw [if_pos hcond]
        constructor
        · simp only [QRUploadApp.showSuccess, QRUploadApp.teardownWebSocket]
          cases hwc : st.wsClient <;> simp [hwc, hleak]
        · intro c hc
          simp only [QRUploadApp.showSuccess, QRUploadApp.teardownWebSocket] at hc
          cases hwc : st.wsClient <;> simp [hwc] at hc
      · rw [if_neg hcond]
        exact ⟨hleak, hcl⟩
  | wsError h =>
    constructor
    · simp only [QRUploadApp.showError, QRUploadApp.teardownWebSocket]
      cases hwc : st.wsClient <;> simp [hwc, hleak]
    · intro c hc
      simp only [QRUploadApp.showError, QRUploadApp.teardownWebSocket] at hc
      cases hwc : st.wsClient <;> simp [hwc] at hc
  | clickCancel h =>
    constructor
    · simp only [QRUploadApp.reset, QRUploadApp.teardownWebSocket]
      cases hwc : st.wsClient <;> simp [hwc, hleak]
    · intro c hc
      simp only [QRUploadApp.reset, QRUploadApp.teardownWebSocket] at hc
      cases hwc : st.wsClient <;> simp [hwc] at hc
  | clickReset h =>
    constructor
    · simp only [QRUploadApp.reset, QRUploadApp.teardownWebSocket]
      cases hwc : st.wsClient <;> simp [hwc, hleak]
    · intro c hc
      simp only [QRUploadApp.reset, QRUploadApp.teardownWebSocket] at hc
      cases hwc : st.wsClient <;> simp [hwc] at hc

theorem channelInv_reachable (cfg : AppConfig) (st : AppState)
    (hr : Reachable cfg st) : ChannelInv st := by
  induction hr with
  | init => exact channelInv_init
  | step st st2 _ hstep ih => exact channelInv_step cfg st st2 ih hstep

/-- A channel invariant bounds the number of open channels by one. -/
theorem channelInv_openChannels (st : AppState) (hinv : ChannelInv st) :
    openChannels st ≤ 1 := by
  obtain ⟨hleak, _⟩ := hinv
  simp only [openChannels, hleak, Nat.zero_add]
  cases st.wsClient with
  | none => exact Nat.zero_le 1
  | some c => by_cases h : c.socket.isSome <;> simp [h]

/-! ### Supporting lemmas: strict equality -/

theorem strictEqString_iff (v : Option Json) (s : String) :
    strictEqString v s = true ↔ v = some (Json.str s) := by
  cases v with
  | none => simp [strictEqString]
  | some j => cases j <;> simp [strictEqString]

theorem strictEqOptString_some_iff (v : Option Json) (s : String) :
    strictEqOptString v (some s) = true ↔ v = some (Json.str s) := by
  cases v with
  | none => simp [strictEqOptString]
  | some j => cases j <;> simp [strictEqOptString]

/-! ### The claims -/

/-- C1: the claim states that the URL encoded in the rendered scannable code
points at the Mobile Upload Page, of the form
(websiteBaseUrl)/uploads/?sessionId=(sessionId), and never directly at the
upload-authorization endpoint GET /upload-url. The code does the opposite on
every successful session creation: the rendered payload is
(httpApiUrl)/upload-url?sessionId=(sessionId), the upload-authorization
endpoint itself, as the general equation and its evaluation at a concrete
run show. -/
theorem C1_qr_payload_is_authorization_endpoint :
    (∀ (cfg : AppConfig) (st : AppState) (sid : String),
      (QRUploadApp.startUploadResume cfg st sid).qrText
        = some (cfg.httpApiUrl ++ "/upload-url?sessionId=" ++ encodeURIComponent sid))
    ∧ (QRUploadApp.startUploadResume demoCfg (QRUploadApp.startUploadBegin initState) "abc123").qrText
        = some "https://api.example.com/upload-url?sessionId=abc123" := by
  constructor
  · intro cfg st sid
    rfl
  · decide

/-- C2 counterexample: the claim states that every per-service packaging run
with an empty or comment-only dependency manifest leaves no local zip behind
and has the uploaded/recorded artifact as its only externally visible
effect. The http_api_handler script, run on a comment-only manifest, skips
the dependency install but keeps http-api-handler.zip in the working tree
and uploads nothing. -/
theorem C2_counterexample :
    (httpApiPackage ["# no deps, boto3 ships with the runtime", ""] ["boto3"]).pipInstallRan = false
    ∧ (httpApiPackage ["# no deps, boto3 ships with the runtime", ""] ["boto3"]).localZipRemains = true
    ∧ (httpApiPackage ["# no deps, boto3 ships with the runtime", ""] ["boto3"]).uploadedToS3 = false := by
  decide

/-- C2 (amended): on a per-service packaging run whose dependency manifest is
empty or comment-only, the dependency-installation step does not execute,
the artifact contains only the service code, and no build directory is left
behind; the websocket variant uploads the artifact, records its name in the
parameter store and deletes the local zip, while the http variant performs
no upload and leaves the local zip as its product. -/
theorem C2_empty_manifest_packaging (reqLines deps : List String)
    (h : manifestHasDeps reqLines = false) :
    (httpApiPackage reqLines deps).pipInstallRan = false
    ∧ (httpApiPackage reqLines deps).zipContents = ownCode
    ∧ (httpApiPackage reqLines deps).buildDirRemains = false
    ∧ (httpApiPackage reqLines deps).localZipRemains = true
    ∧ (httpApiPackage reqLines deps).uploadedToS3 = false
    ∧ (websocketPackage reqLines deps).pipInstallRan = false
    ∧ (websocketPackage reqLines deps).zipContents = ownCode
    ∧ (websocketPackage reqLines deps).buildDirRemains = false
    ∧ (websocketPackage reqLines deps).localZipRemains = false
    ∧ (websocketPackage reqLines deps).uploadedToS3 = true
    ∧ (websocketPackage reqLines deps).ssmParamUpdated = true := by
  simp [httpApiPackage, websocketPackage, ownCode, h]

/-- C2 witness: the amended packaging theorem applied to a comment-only
manifest. -/
theorem C2_empty_manifest_packaging_witness :
    (httpApiPackage ["# comment only"] ["boto3"]).pipInstallRan = false
    ∧ (httpApiPackage ["# comment only"] ["boto3"]).zipContents = ownCode
    ∧ (httpApiPackage ["# comment only"] ["boto3"]).buildDirRemains = false
    ∧ (httpApiPackage ["# comment only"] ["boto3"]).localZipRemains = true
    ∧ (httpApiPackage ["# comment only"] ["boto3"]).uploadedToS3 = false
    ∧ (websocketPackage ["# comment only"] ["boto3"]).pipInstallRan = false
    ∧ (websocketPackage ["# comment only"] ["boto3"]).zipContents = ownCode
    ∧ (websocketPackage ["# comment only"] ["boto3"]).buildDirRemains = false
    ∧ (websocketPackage ["# comment only"] ["boto3"]).localZipRemains = false
    ∧ (websocketPackage ["# comment only"] ["boto3"]).uploadedToS3 = true
    ∧ (websocketPackage ["# comment only"] ["boto3"]).ssmParamUpdated = true :=
  C2_empty_manifest_packaging ["# comment only"] ["boto3"] (by decide)

/-- C3 counterexample: the claim states that the infrastructure deploy script
deletes its rewritten temporary template before exiting on every run,
including runs where the stack deployment command fails. On a dev run whose
deployment command fails, the script (under set -e, with no exit trap) stops
at the failing command: it exits nonzero with the temporary template still
present. -/
theorem C3_counterexample :
    (runDeployScript ["-e", "dev"]
        { stsOk := true, syncOk := true, deployOk := false, outputsOk := true }
        false).exitedZero = false
    ∧ (runDeployScript ["-e", "dev"]
        { stsOk := true, syncOk := true, deployOk := false, outputsOk := true }
        false).deployInvoked = true
    ∧ (runDeployScript ["-e", "dev"]
        { stsOk := true, syncOk := true, deployOk := false, outputsOk := true }
        false).tempTemplateAtExit = true := by
  decide

/-- C3 (amended): the deploy script deletes its rewritten temporary template
before exiting on every run that exits successfully; on a run where the
stack deployment (or a later or earlier unguarded command) fails, set -e
aborts the script at once and the temporary template written by
prepare_deploy_template is left behind (the next run removes any stale copy
before rewriting it). -/
theorem C3_cleanup_only_on_success (args : List String) (ext : ExtCommands) (stale : Bool)
    (h : (runDeployScript args ext stale).exitedZero = true) :
    (runDeployScript args ext stale).tempTemplateAtExit = false := by
  cases hp : parseArgs args none none false with
  | unbound => simp [runDeployScript, hp] at h
  | usage => simp [runDeployScript, hp] at h
  | done env prof dbg =>
    cases env with
    | none => simp [runDeployScript, hp] at h
    | some e =>
      by_cases he : e = "dev"
      · obtain ⟨a, b, c, d⟩ := ext
        cases a <;> cases b <;> cases c <;> cases d <;>
          simp [runDeployScript, hp, he, deployMain] at h ⊢
      · simp [runDeployScript, hp, he] at h

/-- C3 witness: the amended cleanup theorem applied to a fully successful dev
run started with a stale template present. -/
theorem C3_cleanup_only_on_success_witness :
    (runDeployScript ["-e", "dev"]
        { stsOk := true, syncOk := true, deployOk := true, outputsOk := true }
        true).tempTemplateAtExit = false :=
  C3_cleanup_only_on_success ["-e", "dev"]
    { stsOk := true, syncOk := true, deployOk := true, outputsOk := true }
    true (by decide)

/-- C4: the mobile upload page, loaded with no sessionId query parameter,
reaches the error view and makes no network call at all. -/
theorem C4_missing_session_no_network (cfg : MobileConfig)
    (q : List (String × String)) (resp : UploadUrlOutcome)
    (h : searchParamsGet q "sessionId" = none) :
    (mobileInit cfg q resp).1.currentView = MView.error
    ∧ (mobileInit cfg q resp).2 = [] := by
  simp [mobileInit, h, missingSessionId]

/-- C4 witness: loading the page with an unrelated query string ends in the
error view with no request issued. -/
theorem C4_missing_session_no_network_witness :
    (mobileInit { httpApiUrl := "https://api.example.com" } [("foo", "bar")]
        UploadUrlOutcome.failed).1.currentView = MView.error
    ∧ (mobileInit { httpApiUrl := "https://api.example.com" } [("foo", "bar")]
        UploadUrlOutcome.failed).2 = [] :=
  C4_missing_session_no_network { httpApiUrl := "https://api.example.com" }
    [("foo", "bar")] UploadUrlOutcome.failed (by decide)

/-- C5 counterexample: the claim states that every invocation with an
environment value other than dev, or with missing or unknown arguments,
prints usage, exits nonzero, and never invokes the deployment command.
Invoking the script with the lone argument -e is such an invocation (its
environment argument is missing), yet the set -u expansion of the absent
second positional parameter kills the script before the validation: it
exits nonzero without printing the usage text (and without deploying). -/
theorem C5_counterexample :
    (runDeployScript ["-e"]
        { stsOk := true, syncOk := true, deployOk := true, outputsOk := true }
        false).exitedZero = false
    ∧ (runDeployScript ["-e"]
        { stsOk := true, syncOk := true, deployOk := true, outputsOk := true }
        false).usagePrinted = false
    ∧ (runDeployScript ["-e"]
        { stsOk := true, syncOk := true, deployOk := true, outputsOk := true }
        false).deployInvoked = false := by
  decide

/-- C5 (amended): every invocation of the deploy script whose parsed
arguments do not yield the environment dev — an environment value other than
dev, a missing environment, or an unknown argument — exits nonzero without
ever invoking the CloudFormation deployment command; it also prints the
usage text, except in the one degenerate shape where a value-taking flag is
the last argument, which dies on the set -u unbound expansion of the missing
value before reaching the validation and so exits nonzero with no usage
text. -/
theorem C5_invalid_env_never_deploys (args : List String) (ext : ExtCommands) (stale : Bool)
    (hnotdev : ∀ (p : Option String) (d : Bool),
      parseArgs args none none false ≠ ParseOut.done (some "dev") p d) :
    ((runDeployScript args ext stale).exitedZero = false
      ∧ (runDeployScript args ext stale).deployInvoked = false)
    ∧ (parseArgs args none none false ≠ ParseOut.unbound →
        (runDeployScript args ext stale).usagePrinted = true) := by
  cases hp : parseArgs args none none false with
  | unbound =>
    refine ⟨by simp [runDeployScript, hp], ?_⟩
    intro hne
    exact absurd rfl hne
  | usage => simp [runDeployScript, hp]
  | done env prof dbg =>
    cases env with
    | none => simp [runDeployScript, hp]
    | some e =>
      by_cases he : e = "dev"
      · subst he
        exact absurd hp (hnotdev prof dbg)
      · simp [runDeployScript, hp, he]

/-- C5 witness: invoking the script with the environment prod exits nonzero,
prints usage, and never invokes the deployment command. -/
theorem C5_invalid_env_never_deploys_witness :
    ((runDeployScript ["-e", "prod"]
        { stsOk := true, syncOk := true, deployOk := true, outputsOk := true }
        false).exitedZero = false
      ∧ (runDeployScript ["-e", "prod"]
        { stsOk := true, syncOk := true, deployOk := true, outputsOk := true }
        false).deployInvoked = false)
    ∧ (parseArgs ["-e", "prod"] none none false ≠ ParseOut.unbound →
        (runDeployScript ["-e", "prod"]
          { stsOk := true, syncOk := true, deployOk := true, outputsOk := true }
          false).usagePrinted = true) :=
  C5_invalid_env_never_deploys ["-e", "prod"]
    { stsOk := true, syncOk := true, deployOk := true, outputsOk := true }
    false (by intro p d hcontra; simp [parseArgs] at hcontra)

/-- C6: with the qr view active for session sid, an incoming push frame moves
the application to the success view exactly when it parsed as JSON and its
action field is strictly the string UPLOAD_COMPLETED and its sessionId field
is strictly the active session identifier; any frame that fails to parse or
misses either condition leaves the state unchanged. -/
theorem C6_qr_to_success_iff (st : AppState) (sid : String) (parsed : Option Json)
    (hv : st.currentView = View.qr) (hs : st.sessionId = some sid) :
    ((QRUploadApp.handleWebSocketMessage st parsed).currentView = View.success ↔
      (∃ j, parsed = some j
        ∧ j.getField "action" = some (Json.str "UPLOAD_COMPLETED")
        ∧ j.getField "sessionId" = some (Json.str sid)))
    ∧ ((¬ (∃ j, parsed = some j
        ∧ j.getField "action" = some (Json.str "UPLOAD_COMPLETED")
        ∧ j.getField "sessionId" = some (Json.str sid))) →
      QRUploadApp.handleWebSocketMessage st parsed = st) := by
  have key : ∀ j : Json,
      (strictEqString (j.getField "action") "UPLOAD_COMPLETED"
        && strictEqOptString (j.getField "sessionId") st.sessionId) = true ↔
      (j.getField "action" = some (Json.str "UPLOAD_COMPLETED")
        ∧ j.getField "sessionId" = some (Json.str sid)) := by
    intro j
    rw [Bool.and_eq_true, strictEqString_iff, hs, strictEqOptString_some_iff]
  constructor
  · constructor
    · intro hview
      cases parsed with
      | none =>
        exfalso
        simp only [QRUploadApp.handleWebSocketMessage] at hview
        rw [hv] at hview
        cases hview
      | some data =>
        by_cases hcond : (strictEqString (data.getField "action") "UPLOAD_COMPLETED"
            && strictEqOptString (data.getField "sessionId") st.sessionId) = true
        · exact ⟨data, rfl, (key data).mp hcond⟩
        · exfalso
          simp only [QRUploadApp.handleWebSocketMessage, if_neg hcond] at hview
          rw [hv] at hview
          cases hview
    · rintro ⟨j, hj, ha, hsid⟩
      subst hj
      simp only [QRUploadApp.handleWebSocketMessage]
      rw [if_pos ((key j).mpr ⟨ha, hsid⟩)]
      rfl
  · intro hnomatch
    cases parsed with
    | none => rfl
    | some data =>
      simp only [QRUploadApp.handleWebSocketMessage]
      rw [if_neg (fun hcond => hnomatch ⟨data, rfl, (key data).mp hcond⟩)]

/-- C6 witness: in the sample qr state for session abc123, the matching
completion frame moves the view to success, and a frame matching neither
condition leaves the state unchanged. -/
theorem C6_qr_to_success_iff_witness :
    ((QRUploadApp.handleWebSocketMessage demoQrState (some demoMsg)).currentView = View.success ↔
      (∃ j, some demoMsg = some j
        ∧ j.getField "action" = some (Json.str "UPLOAD_COMPLETED")
        ∧ j.getField "sessionId" = some (Json.str "abc123")))
    ∧ ((¬ (∃ j, some demoMsg = some j
        ∧ j.getField "action" = some (Json.str "UPLOAD_COMPLETED")
        ∧ j.getField "sessionId" = some (Json.str "abc123"))) →
      QRUploadApp.handleWebSocketMessage demoQrState (some demoMsg) = demoQrState) :=
  C6_qr_to_success_iff demoQrState "abc123" (some demoMsg) rfl rfl

/-- C7: along every reachable execution of the desktop application, at most
one push channel is open, and any step that lands in the success, error or
initial view has torn the channel down: the client handle is cleared and no
channel remains open. -/
theorem C7_channel_discipline (cfg : AppConfig) (st st2 : AppState)
    (hr : Reachable cfg st) (hstep : AppStep cfg st st2) :
    openChannels st ≤ 1 ∧ openChannels st2 ≤ 1
    ∧ ((st2.currentView = View.success ∨ st2.currentView = View.error
        ∨ st2.currentView = View.initial) →
      st2.wsClient = none ∧ openChannels st2 = 0) := by
  have hinv := channelInv_reachable cfg st hr
  have hinv2 := channelInv_step cfg st st2 hinv hstep
  refine ⟨channelInv_openChannels st hinv, channelInv_openChannels st2 hinv2, ?_⟩
  intro hview
  obtain ⟨hleak2, hcl2⟩ := hinv2
  have hwc : st2.wsClient = none := by
    cases hwc2 : st2.wsClient with
    | none => rfl
    | some c =>
      have hq := hcl2 c hwc2
      rcases hview with h | h | h <;> rw [hq] at h <;> cases h
  refine ⟨hwc, ?_⟩
  simp [openChannels, hleak2, hwc]

/-- C7 witness: the discipline theorem applied to the concrete run initial →
loading → qr → success driven by the matching completion frame. -/
theorem C7_channel_discipline_witness :
    openChannels demoQrState ≤ 1
    ∧ openChannels (QRUploadApp.handleWebSocketMessage demoQrState (some demoMsg)) ≤ 1
    ∧ (((QRUploadApp.handleWebSocketMessage demoQrState (some demoMsg)).currentView = View.success
        ∨ (QRUploadApp.handleWebSocketMessage demoQrState (some demoMsg)).currentView = View.error
        ∨ (QRUploadApp.handleWebSocketMessage demoQrState (some demoMsg)).currentView = View.initial) →
      (QRUploadApp.handleWebSocketMessage demoQrState (some demoMsg)).wsClient = none
      ∧ openChannels (QRUploadApp.handleWebSocketMessage demoQrState (some demoMsg)) = 0) :=
  C7_channel_discipline demoCfg demoQrState
    (QRUploadApp.handleWebSocketMessage demoQrState (some demoMsg))
    (Reachable.step _ _
      (Reachable.step _ _ Reachable.init (AppStep.clickStart _ (Or.inl rfl)))
      (AppStep.sessionOk _ "abc123" rfl))
    (AppStep.wsMessage _ (some demoMsg) rfl)

/-- C8: send on the push-channel client helper is a no-op unless the held
connection is currently open, in which case the transmitted frame is the
JSON text serialization of the data; after close the handle is cleared, so
every subsequent send is a no-op. -/
theorem C8_send_guard_and_serialization (c : WebSocketClient) (d : Json) :
    WebSocketClient.send c d =
      (if WebSocketClient.isOpen c then some (Json.stringify d) else none)
    ∧ (∀ d2 : Json, WebSocketClient.send (WebSocketClient.close c) d2 = none) := by
  constructor
  · cases hs : c.socket with
    | none => simp [WebSocketClient.send, WebSocketClient.isOpen, hs]
    | some s =>
      by_cases h : s.readyState = ReadyState.OPEN <;>
        simp [WebSocketClient.send, WebSocketClient.isOpen, hs, h]
  · intro d2
    cases hs : c.socket <;>
      simp [WebSocketClient.close, WebSocketClient.send, hs]

/-- C10: close on the client helper is idempotent and leaves a client with no
held connection unchanged; likewise teardownWebSocket on the desktop
application is idempotent and a safe no-op when no client is held, so every
teardown path may run unconditionally. -/
theorem C10_close_teardown_idempotent (c c0 : WebSocketClient) (st st0 : AppState)
    (hc : c0.socket = none) (hst : st0.wsClient = none) :
    WebSocketClient.close (WebSocketClient.close c) = WebSocketClient.close c
    ∧ WebSocketClient.close c0 = c0
    ∧ QRUploadApp.teardownWebSocket (QRUploadApp.teardownWebSocket st)
        = QRUploadApp.teardownWebSocket st
    ∧ QRUploadApp.teardownWebSocket st0 = st0 := by
  refine ⟨?_, ?_, ?_, ?_⟩
  · cases hs : c.socket <;> simp [WebSocketClient.close, hs]
  · simp [WebSocketClient.close, hc]
  · cases hs : st.wsClient <;> simp [QRUploadApp.teardownWebSocket, hs]
  · simp [QRUploadApp.teardownWebSocket, hst]

/-- C10 witness: the idempotence theorem applied to a client holding an open
socket, a client holding none, the sample qr state and the initial state. -/
theorem C10_close_teardown_idempotent_witness :
    WebSocketClient.close (WebSocketClient.close
        { url := "wss://ws.example.com", socket := some { readyState := ReadyState.OPEN } })
      = WebSocketClient.close
        { url := "wss://ws.example.com", socket := some { readyState := ReadyState.OPEN } }
    ∧ WebSocketClient.close { url := "wss://ws.example.com", socket := none }
      = { url := "wss://ws.example.com", socket := none }
    ∧ QRUploadApp.teardownWebSocket (QRUploadApp.teardownWebSocket demoQrState)
      = QRUploadApp.teardownWebSocket demoQrState
    ∧ QRUploadApp.teardownWebSocket initState = initState :=
  C10_close_teardown_idempotent
    { url := "wss://ws.example.com", socket := some { readyState := ReadyState.OPEN } }
    { url := "wss://ws.example.com", socket := none }
    demoQrState initState rfl rfl

/-- C9: on an upload action with a selected file and a held authorization,
the page issues exactly one request: a PUT of the raw file bytes (no JSON
envelope) to the authorized uploadUrl, with Content-Type the declared file
type or application/octet-stream when that is empty; every request issued
targets the authorized location, so the page never talks to the backend
services again after obtaining the authorization. -/
theorem C9_upload_is_raw_put (st : MobileState) (f : MobileFile) (u : String) (putOk : Bool)
    (hf : st.file = some f) (hu : st.uploadUrl = some u) (hne : u ≠ "") :
    (uploadFile st putOk).2 =
      [{ method := "PUT", url := u,
         contentType := some (if f.mimeType = "" then "application/octet-stream" else f.mimeType),
         body := HttpBody.raw f.bytes }]
    ∧ (∀ r ∈ (uploadFile st putOk).2, r.url = u ∧ r.body = HttpBody.raw f.bytes) := by
  have hreq : (uploadFile st putOk).2 =
      [{ method := "PUT", url := u,
         contentType := some (if f.mimeType = "" then "application/octet-stream" else f.mimeType),
         body := HttpBody.raw f.bytes }] := by
    cases putOk <;> simp [uploadFile, hf, hu, hne]
  refine ⟨hreq, ?_⟩
  intro r hr
  rw [hreq, List.mem_singleton] at hr
  subst hr
  exact ⟨rfl, rfl⟩

/-- C9 witness: the raw-PUT theorem applied to the sample ready state with a
selected JPEG file and its presigned upload location. -/
theorem C9_upload_is_raw_put_witness :
    (uploadFile demoMobileReady true).2 =
      [{ method := "PUT",
         url := "https://uploads.example.com/session-uploads/abc123/image.jpg?sig=x",
         contentType := some (if ("image/jpeg" : String) = "" then "application/octet-stream" else "image/jpeg"),
         body := HttpBody.raw [137, 80, 78, 71] }]
    ∧ (∀ r ∈ (uploadFile demoMobileReady true).2,
        r.url = "https://uploads.example.com/session-uploads/abc123/image.jpg?sig=x"
        ∧ r.body = HttpBody.raw [137, 80, 78, 71]) :=
  C9_upload_is_raw_put demoMobileReady
    { name := "image.jpg", mimeType := "image/jpeg", bytes := [137, 80, 78, 71] }
    "https://uploads.example.com/session-uploads/abc123/image.jpg?sig=x"
    true rfl rfl (by decide)

end QRUpload
